import Mathlib

/-!
Shallow embedding of the Wallet-Service ledger core (Ddilibe/Wallet-Service).

Source files embedded here:
  - `app/models.py`:   the `Wallet` and `Transaction` tables, their enums and
    their declared schema constraints (`Transaction.id` primary key,
    `Transaction.reference` UNIQUE, `Wallet.id` primary key,
    `Wallet.user_id` UNIQUE, `Wallet.wallet_number` UNIQUE).
  - `app/schemas.py`:  `TransferReq` and `DepositReq` request bodies.
  - `app/routers/wallet.py`: the `transfer`, `paystack_webhook`,
    `init_deposit` and `transactions` handlers.
  - `app/routers/auth.py` line 99: wallet provisioning with balance 0.

Modelling conventions:
  - The database is a `DB` value (insertion-ordered lists of rows); a SQLModel
    `session.execute(select(..).where(..))` followed by `.first()` is
    `List.find?`; the Python pattern `row.first()[0]` applied to an empty
    result is `None[0]` and raises `TypeError`, embedded as `WErr.typeError`.
  - Inserting a row checks the constraints declared in `app/models.py`; a
    violation is `WErr.integrityError` (SQLAlchemy `IntegrityError`), and a
    failure inside a transaction block returns the caller's original state
    (rollback).
  - Accessing an attribute that the model class does not define (the webhook
    reads `tx.wallet_id`, but `Transaction` in `app/models.py` has no
    `wallet_id` field) raises, embedded as `WErr.attributeError`.
  - Principal resolution and permission checks are the excluded auth
    collaborator: each operation takes the resolved caller user id directly.
  - Values generated at run time (references, timestamps, the gateway
    outcome, the recomputed HMAC digest) are explicit parameters; the
    HMAC-SHA512 itself is uninterpreted.
  - `balance` and `amount` are Python `float` in the source; they are
    embedded as `Int` (exact for the integral amounts the API accepts); the
    float representation itself is the subject of claim C8.
  - Timestamp fields that no handler logic reads (`updated_at`,
    `Wallet.created_at`) and the unused `meta` column are omitted.
-/

namespace WalletService

/-- models.py `TransactionStatus`: pending, success, failed. -/
inductive TransactionStatus where
  | pending
  | success
  | failed
deriving DecidableEq, Repr

/-- models.py `TransactionType`: deposit, transfer, withdrawal. -/
inductive TransactionType where
  | deposit
  | transfer
  | withdrawal
deriving DecidableEq, Repr

/-- models.py `Wallet` row: id (PK), user_id (unique FK), balance
(float in the source, embedded as `Int`), wallet_number (unique). -/
structure Wallet where
  id : Nat
  user_id : Nat
  balance : Int
  wallet_number : String
deriving DecidableEq, Repr

/-- models.py `Transaction` row: id (PK), user_id (FK), tx_type, amount
(float in the source, embedded as `Int`), status, reference (UNIQUE),
created_at.  Note: there is no `wallet_id` column. -/
structure Transaction where
  id : Nat
  user_id : Nat
  tx_type : TransactionType
  amount : Int
  status : TransactionStatus
  reference : String
  created_at : Nat
deriving DecidableEq, Repr

/-- The persistent store: the `wallet` and `transaction` tables in
insertion order. -/
structure DB where
  wallets : List Wallet
  txs : List Transaction
deriving DecidableEq, Repr

/-- The empty store, as created by `create_db_and_tables`. -/
def DB.empty : DB := { wallets := [], txs := [] }

/-- Run-time errors surfaced by the handlers: `httpError` is a raised
`HTTPException(code, detail)`; `typeError` is Python `None[0]`;
`attributeError` is an access to an attribute the object lacks (a model
column the class does not define, or a column read off a result `Row`
that only exposes the entity key); `keyError` is a lookup of a dict key
that was never stored; `integrityError` is a database constraint
violation at flush/commit; `noResultFound` is SQLAlchemy `.one()` on an
empty result. -/
inductive WErr where
  | httpError (code : Nat) (detail : String)
  | typeError
  | attributeError
  | keyError
  | integrityError
  | noResultFound
deriving DecidableEq, Repr

/-- schemas.py `TransferReq`: a plain `amount: int` (no bound declared)
and a recipient wallet number. -/
structure TransferReq where
  amount : Int
  wallet_number : String
deriving DecidableEq, Repr

/-- schemas.py `DepositReq`: a plain `amount: int` (no bound declared). -/
structure DepositReq where
  amount : Int
deriving DecidableEq, Repr

/-- `select(Wallet).where(Wallet.user_id == uid)` followed by `.first()`. -/
def findWalletByUser (st : DB) (uid : Nat) : Option Wallet :=
  st.wallets.find? (fun w => w.user_id == uid)

/-- `select(Wallet).where(Wallet.wallet_number == num)` followed by `.first()`. -/
def findWalletByNumber (st : DB) (num : String) : Option Wallet :=
  st.wallets.find? (fun w => w.wallet_number == num)

/-- `select(Wallet).where(Wallet.id == wid)` followed by `.first()` / `.one()`. -/
def findWalletById (st : DB) (wid : Nat) : Option Wallet :=
  st.wallets.find? (fun w => w.id == wid)

/-- `select(Transaction).where(Transaction.reference == ref)` followed by
`.first()`. -/
def findTxByReference (st : DB) (ref : String) : Option Transaction :=
  st.txs.find? (fun t => t.reference == ref)

/-- True when a transaction row with this primary key already exists. -/
def txIdTaken (st : DB) (i : Nat) : Bool :=
  st.txs.any (fun t => t.id == i)

/-- True when a transaction row with this reference already exists
(models.py declares `reference` UNIQUE). -/
def refTaken (st : DB) (r : String) : Bool :=
  st.txs.any (fun t => t.reference == r)

/-- Insert a `Transaction` row, enforcing the constraints declared in
models.py: primary-key uniqueness of `id` and the UNIQUE constraint on
`reference`. A violation surfaces as `IntegrityError` at flush. -/
def insertTx (st : DB) (t : Transaction) : Except WErr DB :=
  if txIdTaken st t.id || refTaken st t.reference then
    .error .integrityError
  else
    .ok { st with txs := st.txs ++ [t] }

/-- Overwrite the balance of the wallet row with primary key `wid`. -/
def setBalance (st : DB) (wid : Nat) (b : Int) : DB :=
  { st with
    wallets := st.wallets.map (fun w => if w.id == wid then { w with balance := b } else w) }

/-- Current balance of the wallet row with primary key `wid` (0 when the
row is absent; callers only use it for rows they just located). -/
def getBalance (st : DB) (wid : Nat) : Int :=
  ((findWalletById st wid).map Wallet.balance).getD 0

/-- auth.py line 99: `Wallet(user_id=user.id, balance=0, wallet_number=...)`
followed by commit. Wallet provisioning; a constraint violation (duplicate
id, user_id or wallet_number) rolls back leaving the store unchanged. -/
def provisionWallet (st : DB) (wid uid : Nat) (num : String) : DB :=
  if st.wallets.any (fun w => w.id == wid) ||
     st.wallets.any (fun w => w.user_id == uid) ||
     st.wallets.any (fun w => w.wallet_number == num) then
    st
  else
    { st with wallets := st.wallets ++ [{ id := wid, user_id := uid, balance := 0, wallet_number := num }] }

/-- wallet.py `transfer` core (lines 265-318), for a resolved actor user
id.  The endpoint-level entry path, including the principal plumbing bug
that precedes this code on every call, is `transfer_route` below.

Trace of the source: look up the sender wallet by `actor.id` and the
recipient by `req.wallet_number`, each via `.first()[0]` (so an empty
result is `None[0]`, a `TypeError`; the subsequent `if not recipient`
guard is unreachable).  Advisory check `sender.balance < req.amount`
raises HTTP 400.  Inside `session.begin()`: re-select both wallets by id,
re-check the sender balance (HTTP 400), debit the sender, credit the
recipient, and insert two `Transaction` rows that share the freshly
generated `ref` — `tx1` with `id = s.id`, amount `-amount`, and `tx2` with
`id = r.id`, amount `+amount`, both `status = success` and both
`user_id = actor.id`.  Any error inside the block rolls the store back.

Charitable abstraction, disclosed: lines 281-285 of the source read
`s.balance` and `r.balance` off `.one()` result Rows without unpacking
the entity, which raises `AttributeError` inside the block (rollback, no
mutation).  This embedding reads the entities instead, giving the handler
strictly more chances to proceed; it then still always errors at the
duplicate-reference insert, so the always-error, store-unchanged outcome
proved below is true of the program a fortiori. -/
def transfer (st : DB) (actorId : Nat) (req : TransferReq) (ref : String) (now : Nat) :
    Except WErr String × DB :=
  match findWalletByUser st actorId with
  | none => (.error .typeError, st)
  | some sender =>
    match findWalletByNumber st req.wallet_number with
    | none => (.error .typeError, st)
    | some recipient =>
      if sender.balance < req.amount then
        (.error (.httpError 400 "insufficient balance"), st)
      else
        match findWalletById st sender.id, findWalletById st recipient.id with
        | none, _ => (.error .noResultFound, st)
        | _, none => (.error .noResultFound, st)
        | some s, some r =>
          if s.balance < req.amount then
            (.error (.httpError 400 "insufficient balance"), st)
          else
            let stA := setBalance st s.id (getBalance st s.id - req.amount)
            let stB := setBalance stA r.id (getBalance stA r.id + req.amount)
            let tx1 : Transaction :=
              { id := s.id, user_id := actorId, tx_type := .transfer,
                amount := -req.amount, status := .success, reference := ref,
                created_at := now }
            let tx2 : Transaction :=
              { id := r.id, user_id := actorId, tx_type := .transfer,
                amount := req.amount, status := .success, reference := ref,
                created_at := now }
            match insertTx stB tx1 with
            | .error e => (.error e, st)
            | .ok stC =>
              match insertTx stC tx2 with
              | .error e => (.error e, st)
              | .ok stD => (.ok "success", stD)

/-- wallet.py `paystack_webhook` (lines 115-175).

`computedMac` stands for the recomputed HMAC-SHA512 hex digest of the raw
body under the shared secret (the hash function is uninterpreted); `sig`
is the `x-paystack-signature` header; `ref` and `declaredStatus` are
`payload["data"].get("reference")` / `.get("status")`.

Trace of the source: missing header raises HTTP 400 "Missing signature";
a digest mismatch raises HTTP 400 "Invalid signature".  The entry lookup
uses `.first()[0]`, so an unknown reference is `None[0]` (`TypeError`) and
the `if not tx` acknowledgement guard is unreachable.  An entry already in
`success` is acknowledged unchanged.  When the declared status is
"success" the code evaluates `tx.wallet_id`, but models.py `Transaction`
has no `wallet_id` field, so an `AttributeError` is raised inside
`session.begin()` and everything rolls back.  Otherwise the entry status
is set to `failed` and committed. -/
def paystack_webhook (st : DB) (computedMac : String) (sig : Option String)
    (ref : Option String) (declaredStatus : Option String) :
    Except WErr Bool × DB :=
  match sig with
  | none => (.error (.httpError 400 "Missing signature"), st)
  | some sg =>
    if computedMac = sg then
      match ref with
      | none => (.error .typeError, st)
      | some rf =>
      match findTxByReference st rf with
      | none => (.error .typeError, st)
      | some tx =>
        if tx.status = .success then
          (.ok true, st)
        else if declaredStatus = some "success" then
          (.error .attributeError, st)
        else
          (.ok true,
           { st with
             txs := st.txs.map (fun t => if t.id == tx.id then { t with status := .failed } else t) })
    else
      (.error (.httpError 400 "Invalid signature"), st)

/-- wallet.py `init_deposit` (lines 39-103), for a resolved user id, a
freshly generated reference and the external gateway outcome.

Trace of the source: everything is wrapped in a broad `except Exception`
that re-raises HTTP 502, so a missing wallet (`None[0]`), a constraint
violation at commit, and a failed gateway call all surface as HTTP 502.
The pending entry is committed before the gateway is called and is kept
even when the gateway call fails.  The inserted row reuses the wallet's
primary key as its own id (`Transaction(id=wallet.id, ...)`). -/
def init_deposit (st : DB) (userId : Nat) (req : DepositReq) (ref : String)
    (now : Nat) (gatewayOk : Bool) : Except WErr String × DB :=
  match findWalletByUser st userId with
  | none => (.error (.httpError 502 "Paystack Initialization failed"), st)
  | some w =>
    let tx : Transaction :=
      { id := w.id, user_id := userId, tx_type := .deposit, amount := req.amount,
        status := .pending, reference := ref, created_at := now }
    match insertTx st tx with
    | .error _ => (.error (.httpError 502 "Paystack Initialization failed"), st)
    | .ok st1 =>
      if gatewayOk then (.ok ref, st1)
      else (.error (.httpError 502 "Paystack Initialization failed"), st1)

/-- Shape of one element of the `transactions` listing response. -/
structure TxOut where
  tx_type : TransactionType
  amount : Int
  status : TransactionStatus
  reference : String
deriving DecidableEq, Repr

/-- Stable insertion step for a most-recent-first (descending
`created_at`) ordering. -/
def insertDescByCreated (t : Transaction) : List Transaction → List Transaction
  | [] => [t]
  | h :: rest =>
    if h.created_at ≤ t.created_at then t :: h :: rest
    else h :: insertDescByCreated t rest

/-- `order_by(desc(Transaction.created_at))`: stable sort, newest first. -/
def sortDescByCreated (l : List Transaction) : List Transaction :=
  l.foldr insertDescByCreated []

/-- wallet.py `transactions` (lines 326-357), for a resolved user id.
The query filters `Transaction.id == user.id` — the transaction primary
key compared against the caller's user id — ordered by descending
`created_at`, and is serialized to (type, amount, status, reference).

Charitable abstraction, disclosed: the serialization loop of the source
reads `t.tx_type` off `txs.all()` result Rows (line 350), which raises
`AttributeError` whenever the filter matches anything; this embedding
serializes the entities, so only the empty-result case is faithful to the
source — the case the claim evaluation below exercises. -/
def transactionsList (st : DB) (userId : Nat) : List TxOut :=
  (sortDescByCreated (st.txs.filter (fun t => t.id == userId))).map
    (fun t => { tx_type := t.tx_type, amount := t.amount, status := t.status,
                reference := t.reference })

/-- models.py `User` row, as far as the transfer handler reads it
(`created_at` is never read there and is omitted). -/
structure User where
  id : Nat
  email : String
  name : Option String
deriving DecidableEq, Repr

/-- A SQLAlchemy result `Row` produced by `session.execute(select(E))`
followed by `.first()`: a one-tuple holding the entity at position 0 and
exposing the entity name as its only named key.  deps.py `get_principal`
stores this Row — not the unpacked entity — under the `user` key of the
principal dict (deps.py lines 48, 53 and 64, 75). -/
structure Row (α : Type) where
  entity : α
deriving DecidableEq, Repr

/-- Column attribute access `.id` on a result `Row` that was not unpacked
with `[0]`: a Row of `select(User)` exposes only the key `User`, so
reading the column attribute `id` on it raises `AttributeError`. -/
def Row.id {α : Type} (_ : Row α) : Except WErr Nat :=
  .error .attributeError

/-- deps.py principal kinds: the `type` entry of the principal dict is
either `user` (bearer token) or `api_key`. -/
inductive PrincipalType where
  | user
  | api_key
deriving DecidableEq, Repr

/-- The principal dict built by deps.py `get_principal`: both branches
store exactly the keys `type` and `user` (the user Row) — an `api_key`
key is never stored. -/
structure Principal where
  ptype : PrincipalType
  user : Row User
deriving DecidableEq, Repr

/-- wallet.py `transfer` endpoint entry (lines 258-318), principal
plumbing included.

Trace of the source: for a user principal, line 261 binds
`actor = principal["user"]` — the stored Row, without the `[0]` unpacking
every other handler uses — so the `actor.id` read in the sender query at
line 265 raises `AttributeError`.  For an api-key principal, line 263
reads `principal["api_key"]`, a key `get_principal` never stores, raising
`KeyError`.  Either way the handler errors (HTTP 500) before the sender
lookup, so the remainder of the handler — embedded as `transfer` — is
unreachable on every call. -/
def transfer_route (st : DB) (p : Principal) (req : TransferReq)
    (ref : String) (now : Nat) : Except WErr String × DB :=
  match p.ptype with
  | .user =>
    match (p.user).id with
    | .error e => (.error e, st)
    | .ok actorId => transfer st actorId req ref now
  | .api_key => (.error .keyError, st)

end WalletService

namespace WalletService

/-! ## Shared lemmas -/

/-- A successful insert certifies that neither constraint was violated and
describes the resulting store: the row was appended. -/
theorem insertTx_ok_inv (st st1 : DB) (t : Transaction)
    (h : insertTx st t = Except.ok st1) :
    (txIdTaken st t.id || refTaken st t.reference) = false ∧
    st1 = { st with txs := st.txs ++ [t] } := by
  unfold insertTx at h
  split at h
  · simp at h
  · rename_i hc
    injection h with h
    exact ⟨by simpa using hc, h.symm⟩

/-- Every call to `transfer` returns an error and leaves the store exactly
as it was.  The two ledger rows of a transfer share one freshly generated
reference, which the UNIQUE constraint on `Transaction.reference` rejects
when the second row is flushed, so the surrounding transaction always
rolls back; the earlier guards also roll back. -/
theorem transfer_rolls_back (st : DB) (actorId : Nat) (req : TransferReq)
    (ref : String) (now : Nat) :
    ∃ e, transfer st actorId req ref now = (Except.error e, st) := by
  simp only [transfer]
  split
  · exact ⟨_, rfl⟩
  · split
    · exact ⟨_, rfl⟩
    · split
      · exact ⟨_, rfl⟩
      · split
        · exact ⟨_, rfl⟩
        · exact ⟨_, rfl⟩
        · split
          · exact ⟨_, rfl⟩
          · split
            · exact ⟨_, rfl⟩
            · rename_i h1
              split
              · exact ⟨_, rfl⟩
              · rename_i stD h2
                exfalso
                obtain ⟨_, rfl⟩ := insertTx_ok_inv _ _ _ h1
                obtain ⟨hfree, _⟩ := insertTx_ok_inv _ _ _ h2
                simp [txIdTaken, refTaken] at hfree

/-- The webhook never modifies the wallet table: every branch leaves
`wallets` untouched (the crediting branch aborts on the missing
`wallet_id` attribute before reaching the balance update). -/
theorem webhook_wallets_eq (st : DB) (mac : String) (sig ref ds : Option String) :
    ((paystack_webhook st mac sig ref ds).2).wallets = st.wallets := by
  unfold paystack_webhook
  repeat' split
  all_goals rfl

/-- The webhook never produces a success-status ledger entry: the only
status it ever writes is `failed`. -/
theorem webhook_no_new_success (st : DB) (mac : String) (sig ref ds : Option String)
    (h : ∀ t ∈ st.txs, t.status ≠ TransactionStatus.success) :
    ∀ t ∈ ((paystack_webhook st mac sig ref ds).2).txs,
      t.status ≠ TransactionStatus.success := by
  unfold paystack_webhook
  split
  · exact h
  · split
    · split
      · exact h
      · split
        · exact h
        · split
          · exact h
          · split
            · exact h
            · intro t ht
              simp only [List.mem_map] at ht
              obtain ⟨u, hu, rfl⟩ := ht
              split
              · intro hcontra
                exact TransactionStatus.noConfusion hcontra
              · exact h u hu
    · exact h

/-- A deposit initiation never touches the wallet table, and every ledger
row it may add is a pending one. -/
theorem deposit_preserves (st : DB) (uid : Nat) (req : DepositReq) (ref : String)
    (now : Nat) (gok : Bool) :
    ((init_deposit st uid req ref now gok).2).wallets = st.wallets ∧
    ∀ t ∈ ((init_deposit st uid req ref now gok).2).txs,
      t.status = TransactionStatus.pending ∨ t ∈ st.txs := by
  simp only [init_deposit]
  split
  · exact ⟨rfl, fun t ht => Or.inr ht⟩
  · split
    · exact ⟨rfl, fun t ht => Or.inr ht⟩
    · rename_i st1 h1
      unfold insertTx at h1
      split at h1
      · simp at h1
      · injection h1 with h1
        subst h1
        cases gok <;>
          · refine ⟨rfl, ?_⟩
            intro t ht
            rcases List.mem_append.1 ht with hmem | hmem
            · exact Or.inr hmem
            · simp only [List.mem_singleton] at hmem
              subst hmem
              exact Or.inl rfl

end WalletService

namespace WalletService

/-! ## Reachable states of the ledger core -/

/-- One public operation applied to the store: wallet provisioning
(auth.py), deposit initiation, a webhook delivery, or a transfer.  Each
constructor relates a store to the store the handler leaves behind,
whatever the handler's inputs and outcome. -/
inductive Step : DB → DB → Prop where
  | provision : ∀ (st : DB) (wid uid : Nat) (num : String),
      Step st (provisionWallet st wid uid num)
  | deposit : ∀ (st : DB) (uid : Nat) (req : DepositReq) (ref : String)
      (now : Nat) (gok : Bool),
      Step st (init_deposit st uid req ref now gok).2
  | webhook : ∀ (st : DB) (mac : String) (sig ref ds : Option String),
      Step st (paystack_webhook st mac sig ref ds).2
  | xfer : ∀ (st : DB) (actorId : Nat) (req : TransferReq) (ref : String) (now : Nat),
      Step st (transfer st actorId req ref now).2

/-- A store reachable from the empty store by the public operations. -/
def Reachable (st : DB) : Prop :=
  Relation.ReflTransGen Step DB.empty st

/-- Sum of the amounts of the success-status ledger entries belonging to
wallet `w`.  The only wallet-to-entry linkage in the schema is the owning
user (`Transaction.user_id`, with `Wallet.user_id` unique), so an entry
belongs to `w` when it carries `w`'s user id. -/
def successSum (st : DB) (w : Wallet) : Int :=
  ((st.txs.filter
      (fun t => t.status == TransactionStatus.success && t.user_id == w.user_id)).map
    Transaction.amount).sum

/-- The reconstructable-balance invariant: every wallet's balance is the
sum of its success-status ledger entries. -/
def balancesMatch (st : DB) : Prop :=
  ∀ w ∈ st.wallets, w.balance = successSum st w

/-- Auxiliary strong invariant: every balance is 0 and no ledger entry is
in the success state.  This is what actually holds of every reachable
store: no handler ever commits a balance change or a success entry. -/
def ZeroInv (st : DB) : Prop :=
  (∀ w ∈ st.wallets, w.balance = 0) ∧
  (∀ t ∈ st.txs, t.status ≠ TransactionStatus.success)

/-- Each public operation preserves the strong invariant. -/
theorem step_preserves_zeroInv {st st1 : DB} (hstep : Step st st1)
    (h : ZeroInv st) : ZeroInv st1 := by
  cases hstep with
  | provision wid uid num =>
    unfold provisionWallet
    split
    · exact h
    · constructor
      · intro w hw
        rcases List.mem_append.1 hw with hmem | hmem
        · exact h.1 w hmem
        · simp only [List.mem_singleton] at hmem
          subst hmem
          rfl
      · exact h.2
  | deposit uid req ref now gok =>
    obtain ⟨hw, ht⟩ := deposit_preserves st uid req ref now gok
    constructor
    · intro w hmem
      rw [hw] at hmem
      exact h.1 w hmem
    · intro t hmem
      rcases ht t hmem with hp | hold
      · rw [hp]
        intro hcontra
        exact TransactionStatus.noConfusion hcontra
      · exact h.2 t hold
  | webhook mac sig ref ds =>
    constructor
    · intro w hmem
      rw [webhook_wallets_eq] at hmem
      exact h.1 w hmem
    · exact webhook_no_new_success st mac sig ref ds h.2
  | xfer actorId req ref now =>
    obtain ⟨e, he⟩ := transfer_rolls_back st actorId req ref now
    rw [he]
    exact h

/-- Every reachable store satisfies the strong invariant. -/
theorem reachable_zeroInv {st : DB} (h : Reachable st) : ZeroInv st := by
  induction h with
  | refl =>
    exact ⟨fun w hw => absurd hw (List.not_mem_nil w),
           fun t ht => absurd ht (List.not_mem_nil t)⟩
  | tail _ hstep ih => exact step_preserves_zeroInv hstep ih

/-- The strong invariant implies the reconstructable-balance invariant:
with no success entries the success sum of every wallet is 0, which is
every wallet's balance. -/
theorem zeroInv_balancesMatch {st : DB} (h : ZeroInv st) : balancesMatch st := by
  intro w hw
  rw [h.1 w hw]
  unfold successSum
  have hnil : st.txs.filter
      (fun t => t.status == TransactionStatus.success && t.user_id == w.user_id) = [] := by
    apply List.filter_eq_nil_iff.2
    intro t ht hcontra
    simp only [Bool.and_eq_true, beq_iff_eq] at hcontra
    exact h.2 t ht hcontra.1
  rw [hnil]
  rfl

end WalletService

namespace WalletService

/-! ## Concrete stores used by the claim evaluations -/

/-- A lightly funded sender and a funded recipient, empty ledger. -/
def c5State : DB :=
  { wallets := [{ id := 1, user_id := 1, balance := 50, wallet_number := "a111" },
                { id := 2, user_id := 2, balance := 200, wallet_number := "b222" }],
    txs := [] }

/-- One wallet with one pending deposit entry under reference ps_x. -/
def c6State : DB :=
  { wallets := [{ id := 1, user_id := 1, balance := 0, wallet_number := "a111" }],
    txs := [{ id := 1, user_id := 1, tx_type := TransactionType.deposit,
              amount := 500, status := TransactionStatus.pending,
              reference := "ps_x", created_at := 3 }] }

/-- One wallet with one failed (terminal) deposit entry under ps_x. -/
def c3State : DB :=
  { wallets := [{ id := 1, user_id := 1, balance := 0, wallet_number := "a111" }],
    txs := [{ id := 1, user_id := 1, tx_type := TransactionType.deposit,
              amount := 500, status := TransactionStatus.failed,
              reference := "ps_x", created_at := 3 }] }

/-- User 1 owns wallet 2, which owns one ledger entry with row id 2. -/
def c9State : DB :=
  { wallets := [{ id := 2, user_id := 1, balance := 0, wallet_number := "a111" }],
    txs := [{ id := 2, user_id := 1, tx_type := TransactionType.deposit,
              amount := 500, status := TransactionStatus.pending,
              reference := "ps_x", created_at := 3 }] }

/-! ## Claims -/

/-- C1: for every wallet and at every store reachable by the public
operations, the wallet's balance equals the sum of the amounts of its
success-status ledger entries.  The invariant holds, but degenerately: no
reachable store contains a success entry or a nonzero balance, because
every transfer aborts on the duplicate-reference constraint and the
webhook crediting branch aborts on the missing `wallet_id` attribute. -/
theorem C1_balance_equals_success_sum (st : DB) (h : Reachable st) :
    balancesMatch st :=
  zeroInv_balancesMatch (reachable_zeroInv h)

/-- Witness for C1 at a concrete reachable store: provision wallet 1 for
user 1, then initiate a deposit of 500 under reference ps_x. -/
theorem C1_witness :
    balancesMatch
      (init_deposit (provisionWallet DB.empty 1 1 "a111") 1 { amount := 500 }
        "ps_x" 3 true).2 :=
  C1_balance_equals_success_sum _
    (Relation.ReflTransGen.tail
      (Relation.ReflTransGen.tail Relation.ReflTransGen.refl
        (Step.provision DB.empty 1 1 "a111"))
      (Step.deposit (provisionWallet DB.empty 1 1 "a111") 1 { amount := 500 }
        "ps_x" 3 true))

/-- C2: what the code actually does with a transfer.  The claim's
conservation property is unrealizable: the two ledger rows of a transfer
share one reference while models.py declares `Transaction.reference`
UNIQUE, so the commit always aborts and rolls back — no call to `transfer`
ever returns a success and every call leaves the store exactly as it was
(the all-or-nothing half of the claim is the part that holds). -/
theorem C2_transfer_never_completes (st : DB) (actorId : Nat)
    (req : TransferReq) (ref : String) (now : Nat) :
    (∀ resp, (transfer st actorId req ref now).1 ≠ Except.ok resp) ∧
    (transfer st actorId req ref now).2 = st := by
  obtain ⟨e, he⟩ := transfer_rolls_back st actorId req ref now
  rw [he]
  exact ⟨fun resp hcontra => Except.noConfusion hcontra, rfl⟩

/-- C3: counter-evaluation.  The entry under ps_x is already in the
terminal state failed; a validly signed notification declaring success is
not acknowledged: the handler only short-circuits on success-status
entries, falls into the crediting branch and aborts with AttributeError
(HTTP 500).  The store is left unchanged. -/
theorem C3_failed_entry_not_acknowledged :
    paystack_webhook c3State "mac" (some "mac") (some "ps_x") (some "success")
      = (Except.error WErr.attributeError, c3State) := by
  rfl

/-- C4: the claim fails on the code.  Every transfer request — in
particular one whose amount exceeds the sender's balance — dies in the
handler's principal plumbing before the insufficient-balance guard is
reached: a user principal hits the Row attribute access `actor.id`
(`actor` is bound to the stored Row without `[0]`, wallet.py line 261, so
line 265 raises AttributeError), and an api-key principal hits the
missing `api_key` key of the principal dict (KeyError).  The handler
returns HTTP 500 with the store unchanged on every call, so the claimed
InsufficientFunds rejection is unreachable; the no-entries-written,
no-balance-changed half of the claim is the part that holds. -/
theorem C4_insufficient_funds_unreachable (st : DB) (p : Principal)
    (req : TransferReq) (ref : String) (now : Nat) :
    transfer_route st p req ref now = (Except.error WErr.attributeError, st) ∨
    transfer_route st p req ref now = (Except.error WErr.keyError, st) := by
  obtain ⟨pt, u⟩ := p
  cases pt
  · exact Or.inl rfl
  · exact Or.inr rfl

/-- C5: counter-evaluation.  A transfer of amount -100 is not rejected as
an invalid amount — no such validation exists in schemas.py or in the
handler.  It passes the balance guard (50 < -100 is false), performs the
reverse debit and credit inside the transaction block and aborts only on
the duplicate-reference constraint, surfacing as HTTP 500 with the store
rolled back. -/
theorem C5_negative_amount_not_rejected :
    transfer c5State 1 { amount := -100, wallet_number := "b222" } "tr_x" 5
      = (Except.error WErr.integrityError, c5State) := by
  rfl

/-- C6: counter-evaluation.  A validly signed notification whose
reference zz matches no ledger entry is not acknowledged: the lookup ends
in `tx.first()[0]`, which is `None[0]`, raising TypeError (HTTP 500); the
acknowledge-without-mutation guard behind it is unreachable.  No state is
mutated. -/
theorem C6_unknown_reference_raises :
    paystack_webhook c6State "mac" (some "mac") (some "zz") (some "success")
      = (Except.error WErr.typeError, c6State) := by
  rfl

/-- C7: a webhook call whose signature header is missing, or differs from
the recomputed keyed hash of the raw body, fails with a client error
(HTTP 400) and mutates nothing: the store comes back untouched. -/
theorem C7_invalid_signature_rejected (st : DB) (computedMac : String)
    (sig ref ds : Option String) (h : sig ≠ some computedMac) :
    (∃ detail, (paystack_webhook st computedMac sig ref ds).1
        = Except.error (WErr.httpError 400 detail)) ∧
    (paystack_webhook st computedMac sig ref ds).2 = st := by
  cases sig with
  | none => exact ⟨⟨"Missing signature", rfl⟩, rfl⟩
  | some sg =>
    have hne : ¬ computedMac = sg := by
      intro he
      exact h (by rw [he])
    refine ⟨⟨"Invalid signature", ?_⟩, ?_⟩
    · simp only [paystack_webhook]
      rw [if_neg hne]
    · simp only [paystack_webhook]
      rw [if_neg hne]

/-- Witness for C7: a tampered signature over the pending-deposit store. -/
theorem C7_witness :
    (∃ detail,
      (paystack_webhook c6State "mac" (some "bad") (some "ps_x") (some "success")).1
        = Except.error (WErr.httpError 400 detail)) ∧
    (paystack_webhook c6State "mac" (some "bad") (some "ps_x") (some "success")).2
      = c6State :=
  C7_invalid_signature_rejected c6State "mac" (some "bad") (some "ps_x")
    (some "success") (by decide)

/-- C9: counter-evaluation.  User 1 owns wallet 2, which owns exactly one
ledger entry, yet the listing returned to user 1 is empty: the query
filters on the transaction primary key being equal to the caller's user
id (`Transaction.id == user.id`) instead of on entry ownership. -/
theorem C9_listing_not_callers_entries :
    transactionsList c9State 1 = [] ∧
    (c9State.txs.filter (fun t => t.user_id == 1)).length = 1 := by
  exact ⟨rfl, rfl⟩

/-- C10: whenever a validly signed notification declares success for a
reference whose entry is not already in the success state, the crediting
branch aborts with AttributeError — it looks the wallet up by
`tx.wallet_id`, a field models.py ledger entries do not possess — before
any credit is applied: the handler errors and the store, wallet balances
included, is returned unchanged. -/
theorem C10_crediting_branch_always_aborts (st : DB) (computedMac : String)
    (r : String) (tx : Transaction)
    (hfind : findTxByReference st r = some tx)
    (hst : tx.status ≠ TransactionStatus.success) :
    paystack_webhook st computedMac (some computedMac) (some r) (some "success")
      = (Except.error WErr.attributeError, st) := by
  simp only [paystack_webhook]
  simp [hfind, hst]

/-- Witness for C10: the pending deposit entry under ps_x with a validly
signed success notification. -/
theorem C10_witness :
    paystack_webhook c6State "mac" (some "mac") (some "ps_x") (some "success")
      = (Except.error WErr.attributeError, c6State) :=
  C10_crediting_branch_always_aborts c6State "mac" "ps_x"
    { id := 1, user_id := 1, tx_type := TransactionType.deposit, amount := 500,
      status := TransactionStatus.pending, reference := "ps_x", created_at := 3 }
    (by rfl) (by decide)

end WalletService
